import Mathlib

/-!
Verification of the option-encoding and binding layer of the ahkpy package
(files `ahkpy/keys.py` and `ahkpy/menu.py`).

The Python layer is glue over an embedded AutoHotkey host: every operation
either performs local validation or assembles option strings and issues
calls over the host bridge (`_ahk.call` / `ahk_call`).  We embed this layer
shallowly:

* host-bridge calls become values of `AhkCall` collected in a trace list;
* a function that may raise a `ValueError` before reaching the host returns
  a pair `(trace, Option String)` — the calls performed before the error and
  the error message, if any;
* Python tri-state keyword arguments (`None` / `True` / `False`) become
  `Option Bool`; numeric arguments become `ℤ` or `ℚ`;
* the `options` list built inside `Hotstring.update` is embedded as a list
  over the token alphabet `HsTok`, mirroring the source's appends chunk by
  chunk and in order.
-/

namespace Ahkpy

/-- Model of Python's `int()` conversion on a rational: truncation toward
zero. -/
def pyInt (q : ℚ) : ℤ := if 0 ≤ q then ⌊q⌋ else ⌈q⌉

/-- Model of Python's `str.lower()`: lowercase every character.  (All the
strings the claims involve are ASCII, where this agrees with Python's
Unicode case folding.) -/
def strLower (s : String) : String := ⟨s.data.map Char.toLower⟩

/-- An argument marshalled over the host bridge: a string, an integer, an
opaque callback (identified by a tag), or Python `None`. -/
inductive HArg
  | s (v : String)
  | i (v : ℤ)
  | cb (tag : ℕ)
  | nil
  deriving DecidableEq, Repr

/-- One call over the host bridge: the command name and its positional
arguments. -/
structure AhkCall where
  cmd : String
  args : List HArg
  deriving DecidableEq, Repr

/-! ### Hotstrings (`ahkpy/keys.py`, class `Hotstring`)

The source `Hotstring` dataclass also carries a `context` field.  All the
claims below concern hotstrings registered through the default context,
whose `_enter`/`_exit` are no-ops, so the context is not modelled as a
field. -/

/-- The `Hotstring` dataclass: trigger string, case-sensitivity flag and
word-boundary flag. -/
structure Hotstring where
  string : String
  case_sensitive : Bool
  replace_inside_word : Bool
  deriving DecidableEq, Repr

/-- Construction of a `Hotstring`, including `__post_init__`: a
case-insensitive hotstring lowercases its trigger string before storing it
(the source guards with `hasattr(self.string, 'lower')`, which holds for
every `str`). -/
def mkHotstring (s : String) (cs riw : Bool) : Hotstring :=
  { string := if cs then s else strLower s
    case_sensitive := cs
    replace_inside_word := riw }

/-- The token alphabet of the hotstring option string assembled by
`Hotstring.update`.  `qm`/`qm0` stand for the source's `?`/`?0` tokens; `K`
carries the numeric value written after the letter (an integer already
converted by `int()` in the positive branch, the raw delay otherwise), and
`P` carries the priority. -/
inductive HsTok
  | C | C0 | C1
  | qm | qm0
  | star | star0 | O | O0
  | B | B0
  | K (v : ℚ)
  | P (v : ℤ)
  | T | T0
  | SI | SP | SE
  | Z | Z0
  deriving DecidableEq, Repr

/-- Keyword arguments of `Hotstring.update`.  Each tri-state option is an
`Option Bool` (`none` = Python `None`); `key_delay` is a number of seconds,
`priority` an integer, `mode` an optional string. -/
structure HsUpdateArgs where
  conform_to_case : Option Bool := none
  wait_for_end_char : Option Bool := none
  omit_end_char : Option Bool := none
  backspacing : Option Bool := none
  priority : Option ℤ := none
  text : Option Bool := none
  mode : Option String := none
  key_delay : Option ℚ := none
  reset_recognizer : Option Bool := none
  deriving DecidableEq, Repr

/-- Tokens appended for case sensitivity / conformity: `C` when the
hotstring is case-sensitive, else `C0` when `conform_to_case` is truthy,
else `C1` when it is set (necessarily `False`), else nothing. -/
def caseTokens (cs : Bool) (conform_to_case : Option Bool) : List HsTok :=
  if cs then [.C]
  else match conform_to_case with
    | some true => [.C0]
    | some false => [.C1]
    | none => []

/-- Tokens appended for the word-boundary flag: `?` or `?0`. -/
def insideTokens (replace_inside_word : Bool) : List HsTok :=
  if replace_inside_word then [.qm] else [.qm0]

/-- Tokens appended for end-character handling: `*` when
`wait_for_end_char is False`; else `*0` and `O` when `omit_end_char` is
truthy; else `*0` when `wait_for_end_char` is truthy, followed by `O0` when
`omit_end_char is False`. -/
def endCharTokens (wait_for_end_char omit_end_char : Option Bool) : List HsTok :=
  if wait_for_end_char = some false then [.star]
  else if omit_end_char = some true then [.star0, .O]
  else
    (if wait_for_end_char = some true then [.star0] else [])
      ++ (if omit_end_char = some false then [.O0] else [])

/-- Tokens appended for backspacing: `B` when truthy, `B0` when set and
falsy, nothing when unset. -/
def backspaceTokens (backspacing : Option Bool) : List HsTok :=
  match backspacing with
  | some true => [.B]
  | some false => [.B0]
  | none => []

/-- Tokens appended for the key delay: when set, a positive delay is first
replaced by `int(key_delay * 1000)`, then the `K{key_delay}` token is
appended; a non-positive delay is written unchanged. -/
def delayTokens (key_delay : Option ℚ) : List HsTok :=
  match key_delay with
  | some d => if 0 < d then [.K ((pyInt (d * 1000) : ℤ) : ℚ)] else [.K d]
  | none => []

/-- Token appended for the priority: `P{priority}` whenever set. -/
def priorityTokens (priority : Option ℤ) : List HsTok :=
  match priority with
  | some p => [.P p]
  | none => []

/-- Tokens appended for the text flag: `T` when truthy, `T0` when set and
falsy, nothing when unset. -/
def textTokens (text : Option Bool) : List HsTok :=
  match text with
  | some true => [.T]
  | some false => [.T0]
  | none => []

/-- Tokens appended for the send mode: the mode is lowercased when set and
compared against `SendMode.INPUT`/`PLAY`/`EVENT` (`"input"`, `"play"`,
`"event"`); any other value yields no token. -/
def modeTokens (mode : Option String) : List HsTok :=
  match mode with
  | some m =>
    if strLower m = "input" then [.SI]
    else if strLower m = "play" then [.SP]
    else if strLower m = "event" then [.SE]
    else []
  | none => []

/-- Tokens appended for recognizer reset: `Z` when truthy, `Z0` when set
and falsy, nothing when unset. -/
def resetTokens (reset_recognizer : Option Bool) : List HsTok :=
  match reset_recognizer with
  | some true => [.Z]
  | some false => [.Z0]
  | none => []

/-- The `options` list built by `Hotstring.update`, chunk by chunk in
source order. -/
def Hotstring.updateOptions (hs : Hotstring) (a : HsUpdateArgs) : List HsTok :=
  caseTokens hs.case_sensitive a.conform_to_case
    ++ insideTokens hs.replace_inside_word
    ++ endCharTokens a.wait_for_end_char a.omit_end_char
    ++ backspaceTokens a.backspacing
    ++ delayTokens a.key_delay
    ++ priorityTokens a.priority
    ++ textTokens a.text
    ++ modeTokens a.mode
    ++ resetTokens a.reset_recognizer

/-- Whether a token belongs to the end-character portion of the option
string (`*`, `*0`, `O`, `O0`). -/
def HsTok.isEndChar : HsTok → Bool
  | .star | .star0 | .O | .O0 => true
  | _ => false

/-- Whether a token is a key-delay token `K{...}`. -/
def HsTok.isK : HsTok → Bool
  | .K _ => true
  | _ => false

/-- Whether a token is a send-mode token (`SI`, `SP` or `SE`). -/
def HsTok.isSendMode : HsTok → Bool
  | .SI | .SP | .SE => true
  | _ => false

/-! ### Key-state queries and `send` (`ahkpy/keys.py`)

Each function below is modelled as the pair of the host calls it performs
and the local `ValueError` it raises, if any: a raised error aborts the
function, so the trace holds exactly the calls made before the raise.  The
host's answers (e.g. `GetKeyState` returning an empty string) are outside
the model; only the local, pre-host behaviour is captured. -/

/-- The key names accepted by `is_key_toggled`, lowercased. -/
def toggleableKeys : List String := ["capslock", "numlock", "scrolllock", "insert", "ins"]

/-- The function `is_key_toggled`: rejects any key name whose lowercase
form is not a toggleable key, otherwise queries the host with
`GetKeyState(key_name, "T")` (via `_get_key_state`). -/
def is_key_toggled (key_name : String) : List AhkCall × Option String :=
  if strLower key_name ∉ toggleableKeys then
    ([], some "key_name must be one of CapsLock, NumLock, ScrollLock, or Insert")
  else
    ([⟨"GetKeyState", [.s key_name, .s "T"]⟩], none)

/-- The helper `_send_level`: validates `0 <= level <= 100`, then issues
`SendLevel(int(level))`. -/
def sendLevel (level : ℤ) : List AhkCall × Option String :=
  if ¬(0 ≤ level ∧ level ≤ 100) then
    ([], some "level must be between 0 and 100")
  else
    ([⟨"SendLevel", [.i level]⟩], none)

/-- The function `send`: maps the mode to a host command (raising on an
unknown mode), then under `send_lock` runs `_send_level(level)` followed by
the send command itself. -/
def send (keys : String) (mode : String) (level : ℤ) : List AhkCall × Option String :=
  let cmd : Option String :=
    if mode = "input" then some "SendInput"
    else if mode = "play" then some "SendPlay"
    else if mode = "event" then some "SendEvent"
    else none
  match cmd with
  | none => ([], some "unknown send mode")
  | some c =>
    match sendLevel level with
    | (calls, some e) => (calls, some e)
    | (calls, none) => (calls ++ [⟨c, [.s keys]⟩], none)

/-! ### Hotkeys and key remapping (`ahkpy/keys.py`)

The claims below involve hotkeys registered through the default context,
whose `_manager` entry/exit are no-ops, so `enable`/`disable`/`toggle`
reduce to a single `HotkeySpecial` host call each. -/

/-- The `Hotkey` dataclass (default context). -/
structure Hotkey where
  key_name : String
  deriving DecidableEq, Repr

/-- The host calls of `Hotkey.enable`. -/
def Hotkey.enableCalls (hk : Hotkey) : List AhkCall :=
  [⟨"HotkeySpecial", [.s hk.key_name, .s "On"]⟩]

/-- The host calls of `Hotkey.disable`. -/
def Hotkey.disableCalls (hk : Hotkey) : List AhkCall :=
  [⟨"HotkeySpecial", [.s hk.key_name, .s "Off"]⟩]

/-- The host calls of `Hotkey.toggle`. -/
def Hotkey.toggleCalls (hk : Hotkey) : List AhkCall :=
  [⟨"HotkeySpecial", [.s hk.key_name, .s "Toggle"]⟩]

/-- The `RemappedKey` dataclass: the wildcard key-down and key-up hotkeys. -/
structure RemappedKey where
  wildcard_origin : Hotkey
  wildcard_origin_up : Hotkey
  deriving DecidableEq, Repr

/-- The host calls of `RemappedKey.enable`: enable the key-down hotkey,
then the key-up hotkey. -/
def RemappedKey.enableCalls (r : RemappedKey) : List AhkCall :=
  r.wildcard_origin.enableCalls ++ r.wildcard_origin_up.enableCalls

/-- The host calls of `RemappedKey.disable`. -/
def RemappedKey.disableCalls (r : RemappedKey) : List AhkCall :=
  r.wildcard_origin.disableCalls ++ r.wildcard_origin_up.disableCalls

/-- The host calls of `RemappedKey.toggle`. -/
def RemappedKey.toggleCalls (r : RemappedKey) : List AhkCall :=
  r.wildcard_origin.toggleCalls ++ r.wildcard_origin_up.toggleCalls

/-- The function `remap_key`: registers the hotkeys `f"*{origin_key}"` and
`f"*{origin_key} Up"` (whose callbacks send the destination key) and
returns them bundled in a `RemappedKey`.  The destination key only appears
inside the callbacks, which the host invokes later. -/
def remap_key (origin_key destination_key : String) : RemappedKey :=
  { wildcard_origin := ⟨"*" ++ origin_key⟩
    wildcard_origin_up := ⟨"*" ++ origin_key ++ " Up"⟩ }

/-! ### Menus (`ahkpy/menu.py`)

Every mutating `Menu` method issues one or more `Menu` directives through
`self._call`, which prepends the command name `"Menu"` and the lowercased
menu name.  Each method below returns the list of host calls it performs,
in order.  An item identifier is a Python `int` (0-based position) or
`str` (item name), embedded as `ℤ ⊕ String`; where the source permits
`None` it is wrapped in `Option`. -/

/-- The `Menu` dataclass: its (lowercased) name. -/
structure Menu where
  name : String
  deriving DecidableEq, Repr

/-- Construction of a `Menu` from an explicit name: `__init__` lowercases
it.  (Passing no name generates a random UUID, which is outside the
model.) -/
def mkMenu (name : String) : Menu := ⟨strLower name⟩

/-- The helper `Menu._item_name`: an `int` identifier `n` becomes the
1-based position string `f"{n + 1}&"`; anything else (a string, or `None`)
is returned unchanged.  The `isinstance(name, int)` test is folded into
the sum type. -/
def Menu.item_name : Option (ℤ ⊕ String) → Option String
  | some (Sum.inl n) => some (toString (n + 1) ++ "&")
  | some (Sum.inr s) => some s
  | none => none

/-- Conversion of an optional string into a host-bridge argument. -/
def HArg.ofOpt : Option String → HArg
  | some v => HArg.s v
  | none => HArg.nil

/-- The helper `Menu._call`: prepends `"Menu"` and the menu's name. -/
def Menu.call (m : Menu) (args : List HArg) : AhkCall :=
  ⟨"Menu", .s m.name :: args⟩

/-- The method `Menu.delete_item`. -/
def Menu.delete_item (m : Menu) (item : ℤ ⊕ String) : List AhkCall :=
  [m.call [.s "Delete", .ofOpt (Menu.item_name (some item))]]

/-- The method `Menu.rename`: the identifier is translated only when it is
not `None`. -/
def Menu.rename (m : Menu) (item : Option (ℤ ⊕ String)) (new_name : Option String) :
    List AhkCall :=
  [m.call [.s "Rename", .ofOpt (Menu.item_name item), .ofOpt new_name]]

/-- The method `Menu.check`. -/
def Menu.check (m : Menu) (item : ℤ ⊕ String) : List AhkCall :=
  [m.call [.s "Check", .ofOpt (Menu.item_name (some item))]]

/-- The method `Menu.uncheck`. -/
def Menu.uncheck (m : Menu) (item : ℤ ⊕ String) : List AhkCall :=
  [m.call [.s "Uncheck", .ofOpt (Menu.item_name (some item))]]

/-- The method `Menu.toggle_check`. -/
def Menu.toggle_check (m : Menu) (item : ℤ ⊕ String) : List AhkCall :=
  [m.call [.s "ToggleCheck", .ofOpt (Menu.item_name (some item))]]

/-- The method `Menu.enable`. -/
def Menu.enable (m : Menu) (item : ℤ ⊕ String) : List AhkCall :=
  [m.call [.s "Enable", .ofOpt (Menu.item_name (some item))]]

/-- The method `Menu.disable`. -/
def Menu.disable (m : Menu) (item : ℤ ⊕ String) : List AhkCall :=
  [m.call [.s "Disable", .ofOpt (Menu.item_name (some item))]]

/-- The method `Menu.toggle_enable`. -/
def Menu.toggle_enable (m : Menu) (item : ℤ ⊕ String) : List AhkCall :=
  [m.call [.s "ToggleEnable", .ofOpt (Menu.item_name (some item))]]

/-- The method `Menu.set_default`. -/
def Menu.set_default (m : Menu) (item : ℤ ⊕ String) : List AhkCall :=
  [m.call [.s "Default", .ofOpt (Menu.item_name (some item))]]

/-- The method `Menu.set_icon`: `number or 0` defaults a missing (or zero)
icon number to `0`, and the host receives `number + 1`. -/
def Menu.set_icon (m : Menu) (item : ℤ ⊕ String) (filename : String)
    (number : Option ℤ) (width : Option ℤ) : List AhkCall :=
  let n := match number with
    | some k => if k = 0 then 0 else k
    | none => 0
  [m.call [.s "Icon", .ofOpt (Menu.item_name (some item)), .s filename, .i (n + 1),
    match width with | some w => .i w | none => .nil]]

/-- The method `Menu.remove_icon`. -/
def Menu.remove_icon (m : Menu) (item : ℤ ⊕ String) : List AhkCall :=
  [m.call [.s "NoIcon", .ofOpt (Menu.item_name (some item))]]

/-- The `new_name` parameter of `Menu._insert_or_update`: the `UNSET`
sentinel, Python `None` (a separator), or an item name. -/
inductive NewName
  | unset
  | noname
  | str (s : String)
  deriving DecidableEq, Repr

/-- Conversion of a `NewName` into a host-bridge argument (the `UNSET`
sentinel never reaches the host through the public methods). -/
def NewName.arg : NewName → HArg
  | .unset => .nil
  | .noname => .nil
  | .str s => .s s

/-- Python truthiness of a `new_name` value: only a non-empty string is
truthy. -/
def NewName.truthy : NewName → Bool
  | .str s => s ≠ ""
  | _ => false

/-- Keyword arguments shared by `Menu.add`/`insert`/`update` (through
`_insert_or_update`).  The callback is opaque (a tag); `submenu` carries
the submenu. -/
structure MenuItemArgs where
  callback : Option ℕ := none
  submenu : Option Menu := none
  priority : Option ℤ := none
  default : Bool := false
  enabled : Option Bool := some true
  checked : Option Bool := some false
  radio : Option Bool := none
  right : Option Bool := none
  new_column : Option Bool := none
  bar_column : Option Bool := none
  icon : Option String := none
  icon_number : Option ℤ := none
  icon_width : Option ℤ := none
  deriving DecidableEq, Repr

/-- The `thing` computed by `_insert_or_update`: a submenu reference
`f":{submenu.name}"`, a callback, or `None`. -/
def menuThing (a : MenuItemArgs) : Option HArg :=
  match a.submenu with
  | some sub => some (.s (":" ++ sub.name))
  | none =>
    match a.callback with
    | some tag => some (.cb tag)
    | none => none

/-- The space-joined `option_str` of `_insert_or_update`. -/
def menuOptionStr (a : MenuItemArgs) : String :=
  String.intercalate " "
    ((match a.priority with | some p => ["P" ++ toString p] | none => [])
      ++ (match a.radio with
        | some b => [(if b then "+" else "-") ++ "Radio"] | none => [])
      ++ (match a.right with
        | some b => [(if b then "+" else "-") ++ "Right"] | none => [])
      ++ (match a.new_column with
        | some b => [(if b then "+" else "-") ++ "Break"] | none => [])
      ++ (match a.bar_column with
        | some b => [(if b then "+" else "-") ++ "BarBreak"] | none => []))

/-- Python truthiness of an optional string: a non-empty string. -/
def optStrTruthy : Option String → Bool
  | some s => s ≠ ""
  | none => false

/-- The method `Menu._insert_or_update`: translates the identifier through
`_item_name`, then on the update path performs the rename / option /
thing / enabled / checked / icon sub-calls, and on the insert path issues
one `Insert` directive followed by the default / enabled / checked / icon
sub-calls addressed by the new item's name. -/
def Menu.insert_or_update (m : Menu) (item : Option (ℤ ⊕ String)) (new_name : NewName)
    (a : MenuItemArgs) (update : Bool) : List AhkCall :=
  let item := Menu.item_name item
  let thing := menuThing a
  let option_str := menuOptionStr a
  if update then
    (if new_name ≠ .unset then
      m.rename (item.map Sum.inr)
        (match new_name with | .str s => some s | _ => none)
    else [])
    ++ (if option_str ≠ "" then [m.call [.s "Add", .ofOpt item, .s "", .s option_str]] else [])
    ++ (match thing with | some t => [m.call [.s "Add", .ofOpt item, t]] | none => [])
    ++ (match a.enabled with
      | some true => [m.call [.s "Enable", .ofOpt item]]
      | some false => [m.call [.s "Disable", .ofOpt item]]
      | none => [])
    ++ (match a.checked with
      | some true => [m.call [.s "Check", .ofOpt item]]
      | some false => [m.call [.s "Uncheck", .ofOpt item]]
      | none => [])
    ++ (match a.icon with
      | some ic =>
        if ic ≠ "" then
          (let n := match a.icon_number with
            | some k => if k = 0 then 0 else k
            | none => 0
          [m.call [.s "Icon", .ofOpt item, .s ic, .i (n + 1),
            match a.icon_width with | some w => .i w | none => .nil]])
        else []
      | none => [])
  else
    [m.call [.s "Insert", .ofOpt item, new_name.arg,
      (match thing with | some t => t | none => .nil), .s option_str]]
    ++ (if new_name.truthy then
      (match new_name with
        | .str s =>
          (if a.default then m.set_default (.inr s) else [])
            ++ (if a.enabled ≠ some true then m.disable (.inr s) else [])
            ++ (if a.checked = some true then m.check (.inr s) else [])
            ++ (if optStrTruthy a.icon then
              (match a.icon with
                | some ic => m.set_icon (.inr s) ic a.icon_number a.icon_width
                | none => [])
              else [])
        | _ => [])
      else [])

/-- The method `Menu.update` (named `update_item` here to avoid clashing
with structure-update syntax): `_insert_or_update` with `update=True`. -/
def Menu.update_item (m : Menu) (item : ℤ ⊕ String) (new_name : NewName)
    (a : MenuItemArgs) : List AhkCall :=
  m.insert_or_update (some item) new_name a true

/-- The method `Menu.insert`: rejects a `None` `insert_before`, otherwise
`_insert_or_update` with `update=False`. -/
def Menu.insert (m : Menu) (insert_before : Option (ℤ ⊕ String)) (item_name : NewName)
    (a : MenuItemArgs) : List AhkCall × Option String :=
  match insert_before with
  | none => ([], some "insert_before must not be None")
  | some i => (m.insert_or_update (some i) item_name a false, none)

/-! ### Classification of hotstring option tokens

Each chunk of `Hotstring.updateOptions` emits tokens of a single group, so
filtering the whole option list by a group-respecting predicate isolates
the corresponding chunk. -/

/-- The group of a hotstring option token: 0 = case sensitivity, 1 = word
boundary, 2 = end-character handling, 3 = backspacing, 4 = key delay,
5 = priority, 6 = text, 7 = send mode, 8 = recognizer reset. -/
def HsTok.group : HsTok → ℕ
  | .C | .C0 | .C1 => 0
  | .qm | .qm0 => 1
  | .star | .star0 | .O | .O0 => 2
  | .B | .B0 => 3
  | .K _ => 4
  | .P _ => 5
  | .T | .T0 => 6
  | .SI | .SP | .SE => 7
  | .Z | .Z0 => 8

/-- Whether a token is a case-sensitivity token (`C`, `C0` or `C1`). -/
def HsTok.isCase : HsTok → Bool
  | .C | .C0 | .C1 => true
  | _ => false

lemma caseTokens_group (cs : Bool) (c : Option Bool) :
    (caseTokens cs c).all (fun t => t.group == 0) = true := by
  unfold caseTokens; repeat' split
  all_goals rfl

lemma insideTokens_group (r : Bool) :
    (insideTokens r).all (fun t => t.group == 1) = true := by
  unfold insideTokens; split
  all_goals rfl

lemma endCharTokens_group (w o : Option Bool) :
    (endCharTokens w o).all (fun t => t.group == 2) = true := by
  unfold endCharTokens; repeat' split
  all_goals rfl

lemma backspaceTokens_group (b : Option Bool) :
    (backspaceTokens b).all (fun t => t.group == 3) = true := by
  unfold backspaceTokens; repeat' split
  all_goals rfl

lemma delayTokens_group (d : Option ℚ) :
    (delayTokens d).all (fun t => t.group == 4) = true := by
  unfold delayTokens; repeat' split
  all_goals rfl

lemma priorityTokens_group (p : Option ℤ) :
    (priorityTokens p).all (fun t => t.group == 5) = true := by
  unfold priorityTokens; repeat' split
  all_goals rfl

lemma textTokens_group (t : Option Bool) :
    (textTokens t).all (fun t => t.group == 6) = true := by
  unfold textTokens; repeat' split
  all_goals rfl

lemma modeTokens_group (m : Option String) :
    (modeTokens m).all (fun t => t.group == 7) = true := by
  unfold modeTokens; repeat' split
  all_goals rfl

lemma resetTokens_group (z : Option Bool) :
    (resetTokens z).all (fun t => t.group == 8) = true := by
  unfold resetTokens; repeat' split
  all_goals rfl

lemma filter_group_nil {l : List HsTok} {p : HsTok → Bool} (j k : ℕ)
    (hl : l.all (fun t => t.group == k) = true)
    (hpj : ∀ t, p t = true → t.group = j) (hjk : j ≠ k) :
    l.filter p = [] := by
  rw [List.filter_eq_nil_iff]
  intro t ht hpt
  have hk : t.group = k := by
    have := List.all_eq_true.mp hl t ht
    simpa using this
  exact hjk ((hpj t hpt).symm.trans hk)

lemma filter_group_self {l : List HsTok} {p : HsTok → Bool} (k : ℕ)
    (hl : l.all (fun t => t.group == k) = true)
    (hkp : ∀ t, t.group = k → p t = true) :
    l.filter p = l := by
  rw [List.filter_eq_self]
  intro t ht
  have hk : t.group = k := by
    have := List.all_eq_true.mp hl t ht
    simpa using this
  exact hkp t hk

lemma isCase_group : ∀ t : HsTok, t.isCase = true → t.group = 0 := by
  intro t; cases t <;> simp [HsTok.isCase, HsTok.group]

lemma group_isCase : ∀ t : HsTok, t.group = 0 → t.isCase = true := by
  intro t; cases t <;> simp [HsTok.isCase, HsTok.group]

lemma isEndChar_group : ∀ t : HsTok, t.isEndChar = true → t.group = 2 := by
  intro t; cases t <;> simp [HsTok.isEndChar, HsTok.group]

lemma group_isEndChar : ∀ t : HsTok, t.group = 2 → t.isEndChar = true := by
  intro t; cases t <;> simp [HsTok.isEndChar, HsTok.group]

lemma isK_group : ∀ t : HsTok, t.isK = true → t.group = 4 := by
  intro t; cases t <;> simp [HsTok.isK, HsTok.group]

lemma group_isK : ∀ t : HsTok, t.group = 4 → t.isK = true := by
  intro t; cases t <;> simp [HsTok.isK, HsTok.group]

lemma isSendMode_group : ∀ t : HsTok, t.isSendMode = true → t.group = 7 := by
  intro t; cases t <;> simp [HsTok.isSendMode, HsTok.group]

lemma group_isSendMode : ∀ t : HsTok, t.group = 7 → t.isSendMode = true := by
  intro t; cases t <;> simp [HsTok.isSendMode, HsTok.group]

/-- Filtering the option list for case tokens isolates the case chunk. -/
lemma updateOptions_filter_isCase (hs : Hotstring) (a : HsUpdateArgs) :
    (hs.updateOptions a).filter HsTok.isCase
      = caseTokens hs.case_sensitive a.conform_to_case := by
  unfold Hotstring.updateOptions
  simp only [List.filter_append]
  rw [filter_group_self 0 (caseTokens_group _ _) group_isCase,
    filter_group_nil 0 1 (insideTokens_group _) isCase_group (by decide),
    filter_group_nil 0 2 (endCharTokens_group _ _) isCase_group (by decide),
    filter_group_nil 0 3 (backspaceTokens_group _) isCase_group (by decide),
    filter_group_nil 0 4 (delayTokens_group _) isCase_group (by decide),
    filter_group_nil 0 5 (priorityTokens_group _) isCase_group (by decide),
    filter_group_nil 0 6 (textTokens_group _) isCase_group (by decide),
    filter_group_nil 0 7 (modeTokens_group _) isCase_group (by decide),
    filter_group_nil 0 8 (resetTokens_group _) isCase_group (by decide)]
  simp

/-- Filtering the option list for end-character tokens isolates the
end-character chunk. -/
lemma updateOptions_filter_isEndChar (hs : Hotstring) (a : HsUpdateArgs) :
    (hs.updateOptions a).filter HsTok.isEndChar
      = endCharTokens a.wait_for_end_char a.omit_end_char := by
  unfold Hotstring.updateOptions
  simp only [List.filter_append]
  rw [filter_group_nil 2 0 (caseTokens_group _ _) isEndChar_group (by decide),
    filter_group_nil 2 1 (insideTokens_group _) isEndChar_group (by decide),
    filter_group_self 2 (endCharTokens_group _ _) group_isEndChar,
    filter_group_nil 2 3 (backspaceTokens_group _) isEndChar_group (by decide),
    filter_group_nil 2 4 (delayTokens_group _) isEndChar_group (by decide),
    filter_group_nil 2 5 (priorityTokens_group _) isEndChar_group (by decide),
    filter_group_nil 2 6 (textTokens_group _) isEndChar_group (by decide),
    filter_group_nil 2 7 (modeTokens_group _) isEndChar_group (by decide),
    filter_group_nil 2 8 (resetTokens_group _) isEndChar_group (by decide)]
  simp

/-- Filtering the option list for key-delay tokens isolates the delay
chunk. -/
lemma updateOptions_filter_isK (hs : Hotstring) (a : HsUpdateArgs) :
    (hs.updateOptions a).filter HsTok.isK = delayTokens a.key_delay := by
  unfold Hotstring.updateOptions
  simp only [List.filter_append]
  rw [filter_group_nil 4 0 (caseTokens_group _ _) isK_group (by decide),
    filter_group_nil 4 1 (insideTokens_group _) isK_group (by decide),
    filter_group_nil 4 2 (endCharTokens_group _ _) isK_group (by decide),
    filter_group_nil 4 3 (backspaceTokens_group _) isK_group (by decide),
    filter_group_self 4 (delayTokens_group _) group_isK,
    filter_group_nil 4 5 (priorityTokens_group _) isK_group (by decide),
    filter_group_nil 4 6 (textTokens_group _) isK_group (by decide),
    filter_group_nil 4 7 (modeTokens_group _) isK_group (by decide),
    filter_group_nil 4 8 (resetTokens_group _) isK_group (by decide)]
  simp

/-- Filtering the option list for send-mode tokens isolates the mode
chunk. -/
lemma updateOptions_filter_isSendMode (hs : Hotstring) (a : HsUpdateArgs) :
    (hs.updateOptions a).filter HsTok.isSendMode = modeTokens a.mode := by
  unfold Hotstring.updateOptions
  simp only [List.filter_append]
  rw [filter_group_nil 7 0 (caseTokens_group _ _) isSendMode_group (by decide),
    filter_group_nil 7 1 (insideTokens_group _) isSendMode_group (by decide),
    filter_group_nil 7 2 (endCharTokens_group _ _) isSendMode_group (by decide),
    filter_group_nil 7 3 (backspaceTokens_group _) isSendMode_group (by decide),
    filter_group_nil 7 4 (delayTokens_group _) isSendMode_group (by decide),
    filter_group_nil 7 5 (priorityTokens_group _) isSendMode_group (by decide),
    filter_group_nil 7 6 (textTokens_group _) isSendMode_group (by decide),
    filter_group_self 7 (modeTokens_group _) group_isSendMode,
    filter_group_nil 7 8 (resetTokens_group _) isSendMode_group (by decide)]
  simp

/-! ### Claims -/

/-- C1: for every value of `omit_end_char` (and of every other update
argument), calling `Hotstring.update` with `wait_for_end_char=False`
produces an option list whose end-char portion is exactly the single token
`*`: no `*0`, `O` or `O0` token is emitted. -/
theorem update_wait_false_emits_star_only (hs : Hotstring) (a : HsUpdateArgs)
    (h : a.wait_for_end_char = some false) :
    (hs.updateOptions a).filter HsTok.isEndChar = [HsTok.star] := by
  rw [updateOptions_filter_isEndChar]
  unfold endCharTokens
  rw [h]
  simp

/-- Witness for C1: a concrete case-insensitive hotstring updated with
`wait_for_end_char=False` and `omit_end_char=True`. -/
theorem update_wait_false_emits_star_only_witness :
    ((mkHotstring "btw" false false).updateOptions
        { wait_for_end_char := some false, omit_end_char := some true }).filter
        HsTok.isEndChar
      = [HsTok.star] :=
  update_wait_false_emits_star_only _ _ rfl

/-- C2 counterexample: updating with `wait_for_end_char` unset (`None`)
and `omit_end_char=True` emits `*0` followed by `O`, not the token `O`
alone as claimed: the `elif omit_end_char:` branch fires because `None`
is not `False`. -/
theorem update_wait_unset_omit_true_not_O_alone :
    ((mkHotstring "abc" false false).updateOptions
        { omit_end_char := some true }).filter HsTok.isEndChar
      = [HsTok.star0, HsTok.O]
    ∧ [HsTok.star0, HsTok.O] ≠ [HsTok.O] := by
  exact ⟨rfl, by decide⟩

/-- C2 (amended): `wait_for_end_char` unset with `omit_end_char=True`
emits `*0` followed by `O` (the same tokens as `wait_for_end_char=True`
with `omit_end_char=True`), and `wait_for_end_char=True` with
`omit_end_char` explicitly `False` emits `*0` followed by `O0`. -/
theorem update_end_char_branch_table (hs : Hotstring) (a : HsUpdateArgs) :
    (a.wait_for_end_char = none → a.omit_end_char = some true →
      (hs.updateOptions a).filter HsTok.isEndChar = [HsTok.star0, HsTok.O])
    ∧ (a.wait_for_end_char = some true → a.omit_end_char = some true →
      (hs.updateOptions a).filter HsTok.isEndChar = [HsTok.star0, HsTok.O])
    ∧ (a.wait_for_end_char = some true → a.omit_end_char = some false →
      (hs.updateOptions a).filter HsTok.isEndChar = [HsTok.star0, HsTok.O0]) := by
  refine ⟨?_, ?_, ?_⟩ <;> intro hw ho <;>
    rw [updateOptions_filter_isEndChar] <;> unfold endCharTokens <;> rw [hw, ho] <;> simp

/-- Witness for the amended C2: the three rows of the branch table at
concrete inputs. -/
theorem update_end_char_branch_table_witness :
    ((mkHotstring "a" false false).updateOptions
        { omit_end_char := some true }).filter HsTok.isEndChar
      = [HsTok.star0, HsTok.O]
    ∧ ((mkHotstring "a" false false).updateOptions
        { wait_for_end_char := some true, omit_end_char := some true }).filter
        HsTok.isEndChar
      = [HsTok.star0, HsTok.O]
    ∧ ((mkHotstring "a" false false).updateOptions
        { wait_for_end_char := some true, omit_end_char := some false }).filter
        HsTok.isEndChar
      = [HsTok.star0, HsTok.O0] :=
  ⟨(update_end_char_branch_table _ _).1 rfl rfl,
   (update_end_char_branch_table _ _).2.1 rfl rfl,
   (update_end_char_branch_table _ _).2.2 rfl rfl⟩

/-- C3: a case-sensitive hotstring's `update` ignores `conform_to_case`
entirely — the option list does not depend on it — and always emits the
token `C`, never `C0` or `C1`. -/
theorem update_case_sensitive_ignores_conform (hs : Hotstring) (a : HsUpdateArgs)
    (h : hs.case_sensitive = true) :
    (∀ c₁ c₂ : Option Bool,
      hs.updateOptions { a with conform_to_case := c₁ }
        = hs.updateOptions { a with conform_to_case := c₂ })
    ∧ HsTok.C ∈ hs.updateOptions a
    ∧ HsTok.C0 ∉ hs.updateOptions a
    ∧ HsTok.C1 ∉ hs.updateOptions a := by
  have hfilter : ∀ b : HsUpdateArgs, (hs.updateOptions b).filter HsTok.isCase = [HsTok.C] := by
    intro b
    rw [updateOptions_filter_isCase]
    unfold caseTokens
    rw [h]
    simp
  refine ⟨?_, ?_, ?_, ?_⟩
  · intro c₁ c₂
    simp [Hotstring.updateOptions, caseTokens, h]
  · have hC : HsTok.C ∈ (hs.updateOptions a).filter HsTok.isCase := by
      rw [hfilter a]; exact List.mem_singleton.mpr rfl
    exact List.mem_of_mem_filter hC
  · intro hc
    have : HsTok.C0 ∈ (hs.updateOptions a).filter HsTok.isCase :=
      List.mem_filter.mpr ⟨hc, rfl⟩
    rw [hfilter a] at this
    simp at this
  · intro hc
    have : HsTok.C1 ∈ (hs.updateOptions a).filter HsTok.isCase :=
      List.mem_filter.mpr ⟨hc, rfl⟩
    rw [hfilter a] at this
    simp at this

/-- Witness for C3: a concrete case-sensitive hotstring, updated with
`conform_to_case=True` and with `conform_to_case=False`. -/
theorem update_case_sensitive_ignores_conform_witness :
    ((mkHotstring "BTW" true false).updateOptions
        { conform_to_case := some true }
      = (mkHotstring "BTW" true false).updateOptions
        { conform_to_case := some false })
    ∧ HsTok.C ∈ (mkHotstring "BTW" true false).updateOptions { conform_to_case := some true }
    ∧ HsTok.C0 ∉ (mkHotstring "BTW" true false).updateOptions { conform_to_case := some true }
    ∧ HsTok.C1 ∉ (mkHotstring "BTW" true false).updateOptions { conform_to_case := some true } :=
  ⟨(update_case_sensitive_ignores_conform (mkHotstring "BTW" true false)
      { conform_to_case := some true } rfl).1 (some true) (some false),
   (update_case_sensitive_ignores_conform _ _ rfl).2.1,
   (update_case_sensitive_ignores_conform _ _ rfl).2.2.1,
   (update_case_sensitive_ignores_conform _ _ rfl).2.2.2⟩

/-- C4: a hotstring constructed case-insensitively stores the lowercased
trigger string; a case-sensitive one stores it unchanged. -/
theorem hotstring_case_folding (s : String) (riw : Bool) :
    (mkHotstring s false riw).string = strLower s
    ∧ (mkHotstring s true riw).string = s :=
  ⟨rfl, rfl⟩

/-- C5: a set `key_delay` of `D > 0` is encoded as the token `K` carrying
`int(D * 1000)` (seconds scaled to milliseconds, truncated toward zero),
a set `key_delay` of `D ≤ 0` is encoded as `K` carrying `D` unscaled, and
an unset `key_delay` emits no `K` token. -/
theorem update_key_delay_scaling (hs : Hotstring) (a : HsUpdateArgs) :
    (∀ d : ℚ, a.key_delay = some d → 0 < d →
      (hs.updateOptions a).filter HsTok.isK = [HsTok.K ((pyInt (d * 1000) : ℤ) : ℚ)])
    ∧ (∀ d : ℚ, a.key_delay = some d → d ≤ 0 →
      (hs.updateOptions a).filter HsTok.isK = [HsTok.K d])
    ∧ (a.key_delay = none → (hs.updateOptions a).filter HsTok.isK = []) := by
  refine ⟨?_, ?_, ?_⟩
  · intro d hd h0
    rw [updateOptions_filter_isK]
    unfold delayTokens
    rw [hd]
    simp [h0]
  · intro d hd h0
    rw [updateOptions_filter_isK]
    unfold delayTokens
    rw [hd]
    simp [not_lt.mpr h0]
  · intro hd
    rw [updateOptions_filter_isK]
    unfold delayTokens
    rw [hd]

/-- Witness for C5: a delay of 1.5 seconds becomes `K1500`, a delay of
-1 stays `K-1`, and an unset delay emits nothing. -/
theorem update_key_delay_scaling_witness :
    (0 : ℚ) < 3 / 2
    ∧ ((mkHotstring "k" false false).updateOptions
        { key_delay := some (3 / 2 : ℚ) }).filter HsTok.isK = [HsTok.K (1500 : ℚ)]
    ∧ ((mkHotstring "k" false false).updateOptions
        { key_delay := some (-1 : ℚ) }).filter HsTok.isK = [HsTok.K (-1 : ℚ)]
    ∧ ((mkHotstring "k" false false).updateOptions
        { key_delay := none }).filter HsTok.isK = [] := by
  refine ⟨by norm_num, ?_, ?_, ?_⟩
  · have h := (update_key_delay_scaling (mkHotstring "k" false false)
      { key_delay := some (3 / 2 : ℚ) }).1 (3 / 2) rfl (by norm_num)
    rw [h]
    norm_num [pyInt]
  · exact (update_key_delay_scaling _ _).2.1 (-1) rfl (by norm_num)
  · exact (update_key_delay_scaling _ { key_delay := none }).2.2 rfl

/-- C8: in `Hotstring.update`, a set `mode` equal (case-insensitively) to
`"input"`, `"play"` or `"event"` emits the send-mode token `SI`, `SP` or
`SE` respectively, and any other set mode emits no send-mode token (the
encoding is total: no error is raised). -/
theorem update_send_mode_tokens (hs : Hotstring) (a : HsUpdateArgs) (m : String)
    (h : a.mode = some m) :
    (strLower m = "input" → (hs.updateOptions a).filter HsTok.isSendMode = [HsTok.SI])
    ∧ (strLower m = "play" → (hs.updateOptions a).filter HsTok.isSendMode = [HsTok.SP])
    ∧ (strLower m = "event" → (hs.updateOptions a).filter HsTok.isSendMode = [HsTok.SE])
    ∧ (strLower m ≠ "input" → strLower m ≠ "play" → strLower m ≠ "event" →
      (hs.updateOptions a).filter HsTok.isSendMode = []) := by
  refine ⟨?_, ?_, ?_, ?_⟩
  · intro h1
    rw [updateOptions_filter_isSendMode]
    unfold modeTokens
    rw [h]
    simp [h1]
  · intro h1
    rw [updateOptions_filter_isSendMode]
    unfold modeTokens
    rw [h]
    simp [h1]
  · intro h1
    rw [updateOptions_filter_isSendMode]
    unfold modeTokens
    rw [h]
    simp [h1]
  · intro h1 h2 h3
    rw [updateOptions_filter_isSendMode]
    unfold modeTokens
    rw [h]
    simp [h1, h2, h3]

/-- Witness for C8: the mode `"Play"` (mixed case) yields `SP`, and the
unrecognized mode `"turbo"` yields no send-mode token and no error. -/
theorem update_send_mode_tokens_witness :
    ((mkHotstring "m" false false).updateOptions
        { mode := some "Play" }).filter HsTok.isSendMode = [HsTok.SP]
    ∧ ((mkHotstring "m" false false).updateOptions
        { mode := some "turbo" }).filter HsTok.isSendMode = [] :=
  ⟨(update_send_mode_tokens _ _ "Play" rfl).2.1 (by decide),
   (update_send_mode_tokens _ _ "turbo" rfl).2.2.2 (by decide) (by decide) (by decide)⟩

/-- C6: with a recognized send mode, `send` raises a `ValueError` for any
level outside `[0, 100]` before performing any host call, and does not
raise for the boundary levels 0 and 100. -/
theorem send_level_validation (keys mode : String) (level : ℤ)
    (hm : mode = "input" ∨ mode = "play" ∨ mode = "event") :
    ((level < 0 ∨ 100 < level) →
      send keys mode level = ([], some "level must be between 0 and 100"))
    ∧ (send keys mode 0).2 = none
    ∧ (send keys mode 100).2 = none := by
  have hlvl : (level < 0 ∨ 100 < level) →
      sendLevel level = ([], some "level must be between 0 and 100") := by
    intro h
    unfold sendLevel
    rw [if_pos (by omega)]
  rcases hm with h | h | h <;> subst h <;>
    exact ⟨fun h => by unfold send; rw [hlvl h]; rfl, rfl, rfl⟩

/-- Witness for C6: level 101 is rejected with no host call, level -1 is
rejected, and levels 0 and 100 pass validation. -/
theorem send_level_validation_witness :
    send "abc" "input" 101 = ([], some "level must be between 0 and 100")
    ∧ send "abc" "play" (-1) = ([], some "level must be between 0 and 100")
    ∧ (send "abc" "input" 0).2 = none
    ∧ (send "abc" "event" 100).2 = none :=
  ⟨(send_level_validation "abc" "input" 101 (Or.inl rfl)).1 (by decide),
   (send_level_validation "abc" "play" (-1) (Or.inr (Or.inl rfl))).1 (by decide),
   (send_level_validation "abc" "input" 0 (Or.inl rfl)).2.1,
   (send_level_validation "abc" "event" 100 (Or.inr (Or.inr rfl))).2.2⟩

/-- C7: `is_key_toggled` raises a `ValueError` before any host call for
every key name whose lowercase form is not a toggleable key
(`capslock`, `numlock`, `scrolllock`, `insert`, `ins`), and issues the
`GetKeyState(key_name, "T")` host query for every key name whose
lowercase form is in that set. -/
theorem is_key_toggled_validation (key_name : String) :
    (strLower key_name ∉ toggleableKeys →
      is_key_toggled key_name
        = ([], some "key_name must be one of CapsLock, NumLock, ScrollLock, or Insert"))
    ∧ (strLower key_name ∈ toggleableKeys →
      is_key_toggled key_name
        = ([⟨"GetKeyState", [.s key_name, .s "T"]⟩], none)) := by
  constructor <;> intro h <;> simp [is_key_toggled, h]

/-- Witness for C7: `"CapsLock"` (mixed case) reaches the host query,
`"Escape"` is rejected locally. -/
theorem is_key_toggled_validation_witness :
    is_key_toggled "CapsLock" = ([⟨"GetKeyState", [.s "CapsLock", .s "T"]⟩], none)
    ∧ is_key_toggled "Escape"
      = ([], some "key_name must be one of CapsLock, NumLock, ScrollLock, or Insert") :=
  ⟨(is_key_toggled_validation "CapsLock").2 (by decide),
   (is_key_toggled_validation "Escape").1 (by decide)⟩

/-- C9: `remap_key` returns a `RemappedKey` holding exactly the wildcard
key-down hotkey `*origin` and the wildcard key-up hotkey `*origin Up`, and
a single `enable` (resp. `disable`, `toggle`) call issues exactly the two
host calls that enable (resp. disable, toggle) both underlying
bindings. -/
theorem remap_key_two_bindings (origin_key destination_key : String) :
    (remap_key origin_key destination_key).wildcard_origin = ⟨"*" ++ origin_key⟩
    ∧ (remap_key origin_key destination_key).wildcard_origin_up
      = ⟨"*" ++ origin_key ++ " Up"⟩
    ∧ (remap_key origin_key destination_key).enableCalls
      = [⟨"HotkeySpecial", [.s ("*" ++ origin_key), .s "On"]⟩,
         ⟨"HotkeySpecial", [.s ("*" ++ origin_key ++ " Up"), .s "On"]⟩]
    ∧ (remap_key origin_key destination_key).disableCalls
      = [⟨"HotkeySpecial", [.s ("*" ++ origin_key), .s "Off"]⟩,
         ⟨"HotkeySpecial", [.s ("*" ++ origin_key ++ " Up"), .s "Off"]⟩]
    ∧ (remap_key origin_key destination_key).toggleCalls
      = [⟨"HotkeySpecial", [.s ("*" ++ origin_key), .s "Toggle"]⟩,
         ⟨"HotkeySpecial", [.s ("*" ++ origin_key ++ " Up"), .s "Toggle"]⟩] :=
  ⟨rfl, rfl, rfl, rfl, rfl⟩

/-- C10: every `Menu` operation that takes an item identifier translates
an integer identifier `n` to the 1-based host position string `f"{n+1}&"`
and passes a string identifier through unchanged — shown for
`_item_name` itself and for the directives issued by `delete_item`,
`rename`, `check`, `uncheck`, `toggle_check`, `enable`, `disable`,
`toggle_enable`, `set_default`, `set_icon`, `remove_icon`, `update` and
`insert`. -/
theorem menu_item_position_translation (m : Menu) (n : ℤ) (s : String)
    (new2 : Option String) (fname : String) (w : Option ℤ) :
    Menu.item_name (some (Sum.inl n)) = some (toString (n + 1) ++ "&")
    ∧ Menu.item_name (some (Sum.inr s)) = some s
    ∧ m.delete_item (Sum.inl n)
      = [⟨"Menu", [.s m.name, .s "Delete", .s (toString (n + 1) ++ "&")]⟩]
    ∧ m.delete_item (Sum.inr s) = [⟨"Menu", [.s m.name, .s "Delete", .s s]⟩]
    ∧ m.rename (some (Sum.inl n)) new2
      = [⟨"Menu", [.s m.name, .s "Rename", .s (toString (n + 1) ++ "&"), .ofOpt new2]⟩]
    ∧ m.check (Sum.inl n)
      = [⟨"Menu", [.s m.name, .s "Check", .s (toString (n + 1) ++ "&")]⟩]
    ∧ m.uncheck (Sum.inl n)
      = [⟨"Menu", [.s m.name, .s "Uncheck", .s (toString (n + 1) ++ "&")]⟩]
    ∧ m.toggle_check (Sum.inl n)
      = [⟨"Menu", [.s m.name, .s "ToggleCheck", .s (toString (n + 1) ++ "&")]⟩]
    ∧ m.enable (Sum.inl n)
      = [⟨"Menu", [.s m.name, .s "Enable", .s (toString (n + 1) ++ "&")]⟩]
    ∧ m.enable (Sum.inr s) = [⟨"Menu", [.s m.name, .s "Enable", .s s]⟩]
    ∧ m.disable (Sum.inl n)
      = [⟨"Menu", [.s m.name, .s "Disable", .s (toString (n + 1) ++ "&")]⟩]
    ∧ m.toggle_enable (Sum.inl n)
      = [⟨"Menu", [.s m.name, .s "ToggleEnable", .s (toString (n + 1) ++ "&")]⟩]
    ∧ m.set_default (Sum.inl n)
      = [⟨"Menu", [.s m.name, .s "Default", .s (toString (n + 1) ++ "&")]⟩]
    ∧ m.set_icon (Sum.inl n) fname none w
      = [⟨"Menu", [.s m.name, .s "Icon", .s (toString (n + 1) ++ "&"), .s fname, .i 1,
          match w with | some v => .i v | none => .nil]⟩]
    ∧ m.remove_icon (Sum.inl n)
      = [⟨"Menu", [.s m.name, .s "NoIcon", .s (toString (n + 1) ++ "&")]⟩]
    ∧ m.update_item (Sum.inl n) NewName.unset
        { enabled := some true, checked := none }
      = [⟨"Menu", [.s m.name, .s "Enable", .s (toString (n + 1) ++ "&")]⟩]
    ∧ m.insert (some (Sum.inl n)) (NewName.str "x") {}
      = ([⟨"Menu", [.s m.name, .s "Insert", .s (toString (n + 1) ++ "&"), .s "x",
          .nil, .s ""]⟩], none)
    ∧ m.insert (some (Sum.inr s)) NewName.noname {}
      = ([⟨"Menu", [.s m.name, .s "Insert", .s s, .nil, .nil, .s ""]⟩], none) := by
  exact ⟨rfl, rfl, rfl, rfl, rfl, rfl, rfl, rfl, rfl, rfl, rfl, rfl, rfl, rfl, rfl,
    rfl, rfl, rfl⟩

end Ahkpy
